import Mathlib

/-!
Shallow embedding of the notes backend (`src/main.py`): data model, JWT
token service, identity resolution, and the note CRUD handlers, together
with theorems settling the specification claims.

Timestamps (`datetime.utcnow()`) are modelled as natural numbers counting
seconds since an epoch.  The record store (the SQL database reached through
a `Session`) is modelled as lists of user and note rows; `session.get`
by primary key becomes `List.find?` on the id field.  An HTTP error raised
by a handler (`HTTPException`) becomes the `error` branch of `Except`;
mutating handlers return the resulting store alongside the result, and on
an error branch return the store they were given, mirroring that the
`raise` happens before any `session.add`/`commit`/`delete` call.
-/

namespace NotesApp

/-- Seconds since an epoch; the model of `datetime.utcnow()` values. -/
abbrev Time := Nat

/-- A row of the `user` table (`class User` in `main.py`).  Committed rows
always carry a concrete primary key, so `id` is not optional here. -/
structure User where
  id : Int
  username : String
  email : String
  hashed_password : String
  created_at : Time
deriving Repr, DecidableEq

/-- A row of the `note` table (`class Note` in `main.py`). -/
structure Note where
  id : Int
  content : String
  is_completed : Bool
  tags : Option String
  created_at : Time
  updated_at : Time
  user_id : Int
deriving Repr, DecidableEq

/-- The request body for creating/updating a note (`class NoteCreate`). -/
structure NoteCreate where
  content : String
  is_completed : Bool := false
  tags : Option String := none
deriving Repr, DecidableEq

/-- Model of `fastapi.HTTPException`: a status code and a detail message. -/
structure HTTPException where
  status_code : Nat
  detail : String
deriving Repr, DecidableEq

/-- The record store: the two tables of the database. -/
structure Store where
  users : List User
  notes : List Note
deriving Repr, DecidableEq

/-- Model of `session.get(User, uid)`: primary-key lookup in the user table. -/
def Store.getUser (s : Store) (uid : Int) : Option User :=
  s.users.find? (fun u => u.id == uid)

/-- Model of `session.get(Note, nid)`: primary-key lookup in the note table. -/
def Store.getNote (s : Store) (nid : Int) : Option Note :=
  s.notes.find? (fun n => n.id == nid)

/-- Constant `ACCESS_TOKEN_EXPIRE_MINUTES = 30` from `main.py`. -/
def ACCESS_TOKEN_EXPIRE_MINUTES : Nat := 30

/-- The JWT claims this application reads and writes: the `user_id` claim
(absent from a forged/old-format token) and the `exp` instant. -/
structure TokenPayload where
  user_id : Option Int
  exp : Time
deriving Repr, DecidableEq

/-- Model of `create_access_token` (`main.py` lines 31-36): copy the data (here the
`user_id` claim) and set `exp` to now plus the fixed TTL. -/
def create_access_token (user_id : Option Int) (now : Time) : TokenPayload :=
  { user_id := user_id, exp := now + ACCESS_TOKEN_EXPIRE_MINUTES * 60 }

/-- A bearer token as presented by a client: either a token signed with
this process's secret (carrying its payload) or anything else — a forged,
tampered or malformed string, which signature verification rejects. -/
inductive BearerToken where
  | signed (payload : TokenPayload)
  | invalid
deriving Repr, DecidableEq

/-- Model of `verify_token` (`main.py` lines 38-45): `jwt.decode` checks the
signature, then the `exp` claim (expired when `exp <= now`), raising
`ExpiredSignatureError` / a generic JWT error which the handler maps to
401 responses. -/
def verify_token (token : BearerToken) (now : Time) :
    Except HTTPException TokenPayload :=
  match token with
  | .invalid => .error ⟨401, "Invalid token"⟩
  | .signed p =>
      if p.exp ≤ now then .error ⟨401, "Token has expired"⟩
      else .ok p

/-- Model of `get_current_user` (`main.py` lines 132-147): verify the token, read
the `user_id` claim — `if not user_id` rejects both a missing claim and a
falsy (zero) value — then look the user up by primary key. -/
def get_current_user (token : BearerToken) (now : Time) (s : Store) :
    Except HTTPException User :=
  match verify_token token now with
  | .error e => .error e
  | .ok payload =>
      match payload.user_id with
      | none => .error ⟨401, "Invalid token"⟩
      | some uid =>
          if uid = 0 then .error ⟨401, "Invalid token"⟩
          else
            match s.getUser uid with
            | none => .error ⟨401, "User not found"⟩
            | some user => .ok user

/-- Model of `login` (`main.py` lines 232-269).  Password verification is done by
the external `passlib` context, so it is passed in as a function.  On
success the handler returns the signed token and the token type. -/
def login (verify_password : String → String → Bool)
    (username password : String) (s : Store) (now : Time) :
    Except HTTPException (BearerToken × String) :=
  match s.users.find? (fun u => u.username == username) with
  | none => .error ⟨401, "Incorrect username or password"⟩
  | some user =>
      if verify_password password user.hashed_password then
        .ok (.signed (create_access_token (some user.id) now), "bearer")
      else
        .error ⟨401, "Incorrect username or password"⟩

/-- Model of `get_notes` (`main.py` lines 294-309): select the notes whose
`user_id` equals the current user's id, in table order. -/
def get_notes (current_user : User) (s : Store) : List Note :=
  s.notes.filter (fun n => n.user_id == current_user.id)

/-- Model of `get_note` (`main.py` lines 311-339): existence check first (404),
then ownership check (403), then return the note. -/
def get_note (note_id : Int) (current_user : User) (s : Store) :
    Except HTTPException Note :=
  match s.getNote note_id with
  | none => .error ⟨404, "Note not found"⟩
  | some note =>
      if note.user_id ≠ current_user.id then
        .error ⟨403, "Not authorized to access this note"⟩
      else
        .ok note

/-- Model of `update_note` (`main.py` lines 341-384): same existence/ownership
gate, then overwrite `content`, `is_completed` and `tags` on the fetched
row and commit.  No other field is assigned — in particular `updated_at`
is not touched (its `default_factory` only fires at construction). -/
def update_note (note_id : Int) (note_update : NoteCreate)
    (current_user : User) (s : Store) :
    Except HTTPException Note × Store :=
  match s.getNote note_id with
  | none => (.error ⟨404, "Note not found"⟩, s)
  | some note =>
      if note.user_id ≠ current_user.id then
        (.error ⟨403, "Not authorized to update this note"⟩, s)
      else
        let updated : Note :=
          { note with
            content := note_update.content
            is_completed := note_update.is_completed
            tags := note_update.tags }
        (.ok updated,
         { s with
           notes := s.notes.map (fun n => if n.id == note_id then updated else n) })

/-- Model of `delete_note` (`main.py` lines 386-422): same gate, then
`session.delete` removes the fetched row and the handler returns a
confirmation message together with the deleted id. -/
def delete_note (note_id : Int) (current_user : User) (s : Store) :
    Except HTTPException (String × Int) × Store :=
  match s.getNote note_id with
  | none => (.error ⟨404, "Note not found"⟩, s)
  | some note =>
      if note.user_id ≠ current_user.id then
        (.error ⟨403, "Not authorized to delete this note"⟩, s)
      else
        (.ok ("Note deleted successfully", note_id),
         { s with notes := s.notes.eraseP (fun n => n.id == note_id) })

/-! ### Concrete fixtures used by closed theorems and witnesses -/

/-- A registered user, as in the spec's concrete scenario. -/
def alice : User := ⟨1, "alice", "a@x.com", "h1", 0⟩

/-- A second registered user. -/
def bob : User := ⟨2, "bob", "b@x.com", "h2", 0⟩

/-- A note owned by `alice`, created and last updated at time 5. -/
def milkNote : Note := ⟨1, "buy milk", false, none, 5, 5, 1⟩

/-- A store holding both users and `alice`'s note. -/
def store1 : Store := ⟨[alice, bob], [milkNote]⟩

/-! ### Claims -/

/-- C1: the claim says a successful update refreshes `updated_at` to the
time of the update.  The handler assigns only `content`, `is_completed`
and `tags`; it reads no clock at all (the `Store → result` signature of
`update_note` reflects this), so after a successful update `updated_at`
still holds its pre-mutation value — here 5, the original stamp — no
matter when the update happens.  The spec's §4.5 update contract and the
`updated_at` field's purpose make the refresh the clear intent; the code
omits it. -/
theorem C1_update_leaves_updated_at_unchanged :
    update_note 1 ⟨"buy bread", true, none⟩ alice store1
      = (.ok ⟨1, "buy bread", true, none, 5, 5, 1⟩,
         ⟨[alice, bob], [⟨1, "buy bread", true, none, 5, 5, 1⟩]⟩)
    ∧ (⟨1, "buy bread", true, none, 5, 5, 1⟩ : Note).updated_at
        = milkNote.updated_at := by
  exact ⟨rfl, rfl⟩

/-- C2: for get/update/delete, an absent note id yields 404 for every
requester; a note owned by someone else yields 403; and a 403 is returned
only when the note exists and its owner differs from the requester. -/
theorem C2_not_found_precedes_ownership (nid : Int) (u : User) (s : Store) :
    (s.getNote nid = none →
       get_note nid u s = .error ⟨404, "Note not found"⟩
       ∧ (∀ nc : NoteCreate,
            (update_note nid nc u s).1 = .error ⟨404, "Note not found"⟩)
       ∧ (delete_note nid u s).1 = .error ⟨404, "Note not found"⟩)
  ∧ (∀ note : Note, s.getNote nid = some note → note.user_id ≠ u.id →
       get_note nid u s = .error ⟨403, "Not authorized to access this note"⟩
       ∧ (∀ nc : NoteCreate,
            (update_note nid nc u s).1
              = .error ⟨403, "Not authorized to update this note"⟩)
       ∧ (delete_note nid u s).1
           = .error ⟨403, "Not authorized to delete this note"⟩)
  ∧ (∀ e : HTTPException, e.status_code = 403 →
       (get_note nid u s = .error e
         ∨ (∃ nc : NoteCreate, (update_note nid nc u s).1 = .error e)
         ∨ (delete_note nid u s).1 = .error e) →
       ∃ note, s.getNote nid = some note ∧ note.user_id ≠ u.id) := by
  refine ⟨?_, ?_, ?_⟩
  · intro h
    refine ⟨?_, fun nc => ?_, ?_⟩ <;> simp [get_note, update_note, delete_note, h]
  · intro note hfind hown
    refine ⟨?_, fun nc => ?_, ?_⟩ <;>
      simp [get_note, update_note, delete_note, hfind, hown]
  · intro e he h
    cases hg : s.getNote nid with
    | none =>
        exfalso
        rcases h with h | ⟨nc, h⟩ | h <;>
          simp [get_note, update_note, delete_note, hg] at h <;>
          rw [← h] at he <;> simp at he
    | some note =>
        by_cases hown : note.user_id = u.id
        · exfalso
          rcases h with h | ⟨nc, h⟩ | h <;>
            simp [get_note, update_note, delete_note, hg, hown] at h
        · exact ⟨note, rfl, hown⟩

/-- Witness for C2: probing a non-existent id 99 gives 404 even for a
valid requester, and `bob` probing `alice`'s note gives 403. -/
theorem C2_witness :
    get_note 99 alice store1 = .error ⟨404, "Note not found"⟩
    ∧ get_note 1 bob store1
        = .error ⟨403, "Not authorized to access this note"⟩ := by
  constructor
  · exact ((C2_not_found_precedes_ownership 99 alice store1).1 (by decide)).1
  · exact ((C2_not_found_precedes_ownership 1 bob store1).2.1 milkNote
      (by decide) (by decide)).1

/-- C3: a token issued for user `uid` carries `uid` and expires exactly
30 minutes after issuance; verified strictly before the expiry it yields
the payload carrying `uid`, and at or after the expiry verification fails
with the expired-credential error. -/
theorem C3_token_issue_verify (uid : Int) (issued now : Time) :
    (create_access_token (some uid) issued).user_id = some uid
  ∧ (create_access_token (some uid) issued).exp = issued + 30 * 60
  ∧ (now < issued + 30 * 60 →
       verify_token (.signed (create_access_token (some uid) issued)) now
         = .ok (create_access_token (some uid) issued))
  ∧ (issued + 30 * 60 ≤ now →
       verify_token (.signed (create_access_token (some uid) issued)) now
         = .error ⟨401, "Token has expired"⟩) := by
  refine ⟨rfl, rfl, fun h => ?_, fun h => ?_⟩
  · have hnot : ¬ (issued + 30 * 60 ≤ now) := Nat.not_le.mpr h
    simp [verify_token, create_access_token, ACCESS_TOKEN_EXPIRE_MINUTES, hnot]
  · have hle : issued + 30 * 60 ≤ now := h
    simp [verify_token, create_access_token, ACCESS_TOKEN_EXPIRE_MINUTES, hle]

/-- Witness for C3: a token issued at time 0 for user 7 verifies at time
100 and is rejected as expired at time 1800 (= 30 minutes). -/
theorem C3_witness :
    verify_token (.signed (create_access_token (some 7) 0)) 100
      = .ok ⟨some 7, 1800⟩
    ∧ verify_token (.signed (create_access_token (some 7) 0)) 1800
        = .error ⟨401, "Token has expired"⟩ := by
  constructor
  · exact (C3_token_issue_verify 7 0 100).2.2.1 (by decide)
  · exact (C3_token_issue_verify 7 0 1800).2.2.2 (by decide)

/-- Every error raised by `verify_token` carries status 401. -/
theorem verify_token_error_status (token : BearerToken) (now : Time)
    (e : HTTPException) (h : verify_token token now = .error e) :
    e.status_code = 401 := by
  unfold verify_token at h
  split at h
  · cases h; rfl
  · split at h
    · cases h; rfl
    · cases h

/-- A user record whose primary key is the falsy integer 0. -/
def userZero : User := ⟨0, "zed", "z@x.com", "hz", 0⟩

/-- A store holding only `userZero`. -/
def storeZero : Store := ⟨[userZero], []⟩

/-- C4 counterexample: a fresh signed token for user id 0, verified at
time 0 against a store that does contain a user with id 0.  Verification
passes, the `user_id` claim is present, and the user exists, yet identity
resolution returns 401 "Invalid token" instead of that user's record,
because `if not user_id` also rejects the falsy value 0. -/
theorem C4_counterexample :
    verify_token (.signed ⟨some 0, 1000⟩) 0 = .ok ⟨some 0, 1000⟩
    ∧ (⟨some 0, 1000⟩ : TokenPayload).user_id = some 0
    ∧ storeZero.getUser 0 = some userZero
    ∧ get_current_user (.signed ⟨some 0, 1000⟩) 0 storeZero
        = .error ⟨401, "Invalid token"⟩ := by
  exact ⟨rfl, rfl, rfl, rfl⟩

/-- C4 (amended): identity resolution succeeds exactly when token
verification passes, the payload carries a nonzero `user_id`, and a user
with that id exists, in which case it returns that user's record; every
failure is an Unauthenticated (401) error. -/
theorem C4_identity_resolution (token : BearerToken) (now : Time) (s : Store) :
    (∀ u : User, get_current_user token now s = .ok u ↔
       ∃ p : TokenPayload, verify_token token now = .ok p
         ∧ ∃ uid : Int, p.user_id = some uid ∧ uid ≠ 0 ∧ s.getUser uid = some u)
  ∧ (∀ e : HTTPException, get_current_user token now s = .error e →
       e.status_code = 401) := by
  constructor
  · intro u
    constructor
    · intro hok
      unfold get_current_user at hok
      revert hok
      cases hv : verify_token token now with
      | error e => intro hok; simp at hok
      | ok p =>
          cases hp : p.user_id with
          | none => intro hok; simp [hp] at hok
          | some uid =>
              by_cases h0 : uid = 0
              · subst h0; intro hok; simp [hp] at hok
              · cases hu : s.getUser uid with
                | none => intro hok; simp [hp, h0, hu] at hok
                | some user =>
                    intro hok
                    simp [hp, h0, hu] at hok
                    exact ⟨p, rfl, uid, hp, h0, by rw [hu, hok]⟩
    · rintro ⟨p, hv, uid, hp, h0, hu⟩
      unfold get_current_user
      rw [hv]
      simp [hp, h0, hu]
  · intro e2
    unfold get_current_user
    cases hv : verify_token token now with
    | error e3 =>
        intro he
        simp at he
        exact he ▸ verify_token_error_status token now e3 hv
    | ok p =>
        cases hp : p.user_id with
        | none =>
            intro he
            simp [hp] at he
            rw [← he]
        | some uid =>
            by_cases h0 : uid = 0
            · subst h0
              intro he
              simp [hp] at he
              rw [← he]
            · cases hu : s.getUser uid with
              | none =>
                  intro he
                  simp [hp, h0, hu] at he
                  rw [← he]
              | some user =>
                  intro he
                  simp [hp, h0, hu] at he

/-- Witness for C4: a fresh token for `alice` resolves to `alice`. -/
theorem C4_witness :
    get_current_user (.signed ⟨some 1, 1800⟩) 0 store1 = .ok alice := by
  exact ((C4_identity_resolution (.signed ⟨some 1, 1800⟩) 0 store1).1 alice).mpr
    ⟨⟨some 1, 1800⟩, rfl, 1, rfl, by decide, by decide⟩

/-- C5: a note is returned by `get_notes` for user `u` iff it is stored
and owned by `u` — every returned note is `u`'s, every stored note of
`u`'s is returned, and no other user's note ever appears. -/
theorem C5_list_ownership_isolation (u : User) (s : Store) (n : Note) :
    n ∈ get_notes u s ↔ n ∈ s.notes ∧ n.user_id = u.id := by
  simp [get_notes, List.mem_filter]

/-- Witness for C5: `alice`'s note is listed for `alice`, never for
`bob`. -/
theorem C5_witness :
    milkNote ∈ get_notes alice store1 ∧ milkNote ∉ get_notes bob store1 := by
  constructor
  · exact (C5_list_ownership_isolation alice store1 milkNote).mpr
      ⟨by decide, rfl⟩
  · intro h
    exact absurd ((C5_list_ownership_isolation bob store1 milkNote).mp h).2
      (by decide)

/-- C10: a signed, unexpired token whose payload carries `user_id = 0`
is rejected by identity resolution with 401 "Invalid token", for every
store — even one containing a user with id 0. -/
theorem C10_falsy_user_id_rejected (e : Time) (now : Time) (s : Store)
    (h : now < e) :
    get_current_user (.signed ⟨some 0, e⟩) now s
      = .error ⟨401, "Invalid token"⟩ := by
  have hnot : ¬ (e ≤ now) := Nat.not_le.mpr h
  simp [get_current_user, verify_token, hnot]

/-- Witness for C10: concrete instance over the store holding a user
with id 0. -/
theorem C10_witness :
    get_current_user (.signed ⟨some 0, 10⟩) 0 storeZero
      = .error ⟨401, "Invalid token"⟩ :=
  C10_falsy_user_id_rejected 10 0 storeZero (by decide)

/-- C6: a successful update replaces exactly `content`, `is_completed`
and `tags` with the supplied values while `id`, `user_id` and
`created_at` keep the stored note's values. -/
theorem C6_update_full_replace (nid : Int) (nc : NoteCreate) (u : User)
    (s : Store) (note : Note)
    (hfind : s.getNote nid = some note) (hown : note.user_id = u.id) :
    ∃ (updated : Note) (s2 : Store),
      update_note nid nc u s = (.ok updated, s2)
      ∧ updated.content = nc.content
      ∧ updated.is_completed = nc.is_completed
      ∧ updated.tags = nc.tags
      ∧ updated.id = note.id
      ∧ updated.user_id = note.user_id
      ∧ updated.created_at = note.created_at := by
  refine ⟨{ note with
            content := nc.content
            is_completed := nc.is_completed
            tags := nc.tags },
          { s with notes := s.notes.map (fun n => if n.id == nid then
              { note with
                content := nc.content
                is_completed := nc.is_completed
                tags := nc.tags } else n) },
          ?_, rfl, rfl, rfl, rfl, rfl, rfl⟩
  simp [update_note, hfind, hown]

/-- Witness for C6: `alice` updates her note; the new fields are the
supplied ones, the identity fields those of `milkNote`. -/
theorem C6_witness :
    ∃ (updated : Note) (s2 : Store),
      update_note 1 ⟨"do laundry", true, some "home"⟩ alice store1
        = (.ok updated, s2)
      ∧ updated.content = "do laundry"
      ∧ updated.is_completed = true
      ∧ updated.tags = some "home"
      ∧ updated.id = milkNote.id
      ∧ updated.user_id = milkNote.user_id
      ∧ updated.created_at = milkNote.created_at :=
  C6_update_full_replace 1 ⟨"do laundry", true, some "home"⟩ alice store1
    milkNote (by decide) (by decide)

/-- C7: the two ways a login can fail — unknown username, and known
username with a password the credential store rejects — produce the
identical error, status 401 with the same message, so the caller cannot
distinguish them. -/
theorem C7_login_failures_indistinguishable
    (vp : String → String → Bool) (username password : String)
    (s : Store) (now : Time) :
    (s.users.find? (fun u => u.username == username) = none →
       login vp username password s now
         = .error ⟨401, "Incorrect username or password"⟩)
  ∧ (∀ user : User,
       s.users.find? (fun u => u.username == username) = some user →
       vp password user.hashed_password = false →
       login vp username password s now
         = .error ⟨401, "Incorrect username or password"⟩) := by
  constructor
  · intro h
    simp [login, h]
  · intro user hfind hvp
    simp [login, hfind, hvp]

/-- Witness for C7: against `store1`, an unknown username and a wrong
password for `alice` yield the same error. -/
theorem C7_witness :
    login (fun _ _ => false) "carol" "pw" store1 0
      = .error ⟨401, "Incorrect username or password"⟩
    ∧ login (fun _ _ => false) "alice" "wrongpw" store1 0
      = .error ⟨401, "Incorrect username or password"⟩ := by
  constructor
  · exact (C7_login_failures_indistinguishable (fun _ _ => false) "carol"
      "pw" store1 0).1 rfl
  · exact (C7_login_failures_indistinguishable (fun _ _ => false) "alice"
      "wrongpw" store1 0).2 alice rfl rfl

/-- With distinct primary keys, erasing the row found by a primary-key
lookup leaves no row with that key. -/
theorem find?_eraseP_id_eq_none (l : List Note) (nid : Int)
    (hnodup : (l.map Note.id).Nodup) (n : Note)
    (hfind : l.find? (fun x => x.id == nid) = some n) :
    (l.eraseP (fun x => x.id == nid)).find? (fun x => x.id == nid)
      = none := by
  induction l with
  | nil => simp at hfind
  | cons a t ih =>
      simp only [List.map_cons, List.nodup_cons] at hnodup
      by_cases ha : a.id = nid
      · have herase : (a :: t).eraseP (fun x => x.id == nid) = t := by
          simp [List.eraseP_cons, ha]
        rw [herase, List.find?_eq_none]
        intro x hx
        simp only [beq_iff_eq]
        intro hxid
        have hmem : x.id ∈ t.map Note.id := List.mem_map_of_mem Note.id hx
        rw [hxid, ← ha] at hmem
        exact hnodup.1 hmem
      · have hcons : (a :: t).eraseP (fun x => x.id == nid)
            = a :: t.eraseP (fun x => x.id == nid) := by
          simp [List.eraseP_cons, ha]
        have hb : (a.id == nid) = false := by simp [ha]
        have hfind2 : t.find? (fun x => x.id == nid) = some n := by
          rw [List.find?_cons, hb] at hfind
          exact hfind
        rw [hcons, List.find?_cons, hb]
        exact ih hnodup.2 hfind2

/-- C8: a successful delete by the owner returns the confirmation
message with the deleted id, and afterwards every `get` of that id
fails with 404, provided primary keys are distinct (as the database
guarantees). -/
theorem C8_delete_then_get_not_found (nid : Int) (u : User) (s : Store)
    (note : Note) (hnodup : (s.notes.map Note.id).Nodup)
    (hfind : s.getNote nid = some note) (hown : note.user_id = u.id) :
    ∃ s2 : Store,
      delete_note nid u s = (.ok ("Note deleted successfully", nid), s2)
      ∧ ∀ v : User, get_note nid v s2 = .error ⟨404, "Note not found"⟩ := by
  refine ⟨{ s with notes := s.notes.eraseP (fun x => x.id == nid) }, ?_, ?_⟩
  · simp [delete_note, hfind, hown]
  · intro v
    have hnone : (s.notes.eraseP (fun x => x.id == nid)).find?
        (fun x => x.id == nid) = none :=
      find?_eraseP_id_eq_none s.notes nid hnodup note hfind
    simp [get_note, Store.getNote, hnone]

/-- Witness for C8: `alice` deletes her note; any subsequent get of id 1
returns 404. -/
theorem C8_witness :
    ∃ s2 : Store,
      delete_note 1 alice store1 = (.ok ("Note deleted successfully", 1), s2)
      ∧ ∀ v : User, get_note 1 v s2 = .error ⟨404, "Note not found"⟩ :=
  C8_delete_then_get_not_found 1 alice store1 milkNote (by decide)
    (by decide) (by decide)

/-- C9: when `update_note` or `delete_note` fails (404 or 403), the
returned store is exactly the input store — the exception is raised
before any write.  The read-only operations (`get_note`, `get_notes`,
`get_current_user`, `login`) do not return a store at all because the
corresponding handlers perform no `add`/`commit`/`delete` call. -/
theorem C9_error_paths_leave_store_unchanged (nid : Int) (nc : NoteCreate)
    (u : User) (s : Store) :
    (∀ e : HTTPException, (update_note nid nc u s).1 = .error e →
       (update_note nid nc u s).2 = s)
  ∧ (∀ e : HTTPException, (delete_note nid u s).1 = .error e →
       (delete_note nid u s).2 = s) := by
  constructor
  · intro e
    unfold update_note
    cases hg : s.getNote nid with
    | none => intro _; rfl
    | some note =>
        by_cases hown : note.user_id = u.id
        · simp [hown]
        · simp [hown]
  · intro e
    unfold delete_note
    cases hg : s.getNote nid with
    | none => intro _; rfl
    | some note =>
        by_cases hown : note.user_id = u.id
        · simp [hown]
        · simp [hown]

/-- Witness for C9: a 404 update and a 403 delete both leave `store1`
untouched. -/
theorem C9_witness :
    (update_note 99 ⟨"x", false, none⟩ alice store1).2 = store1
    ∧ (delete_note 1 bob store1).2 = store1 := by
  constructor
  · exact (C9_error_paths_leave_store_unchanged 99 ⟨"x", false, none⟩
      alice store1).1 ⟨404, "Note not found"⟩ rfl
  · exact (C9_error_paths_leave_store_unchanged 1 ⟨"x", false, none⟩
      bob store1).2 ⟨403, "Not authorized to delete this note"⟩ rfl

end NotesApp
